import Mathlib

/-!
Verification of the navigation/selection core of the `bevy_quickmenu` crate.

The repository ships a single visible source file, `src/lib.rs`, which declares
the plugin surface: `QuickMenuPlugin`, the `ActionTrait` and `ScreenTrait`
capability contracts, the `MenuState` resource with `MenuState::new` and
`MenuState::state_mut`, and the `cleanup` entry point.  The modules holding the
navigation engine itself (`navigation_menu`, `types`, `systems`, `widgets`,
`style`) are re-exported by `lib.rs` but their code is not under `src/`; where a
claim depends on them, the corresponding definition below is modelled from the
spec and carries a doc comment saying so.

Conventions of the shallow embedding:
* Menu identifiers are modelled as `Nat` (the spec calls them "opaque
  comparable keys").
* The host-provided capabilities `ScreenTrait::resolve` and
  `ActionTrait::handle` are modelled as explicit function parameters
  `resolve : S → St → Menu A S` and `handle : A → St → St` (the Bevy event
  writer carries no navigation semantics and is dropped).
* Bevy resources come and go; the engine being "attached"/active is modelled
  with `Option`: `none` is the torn-down state.
-/

/-- Modelled from the spec: the `types` module (not under `src/`) defines the
`MenuItem` entry taxonomy: `Headline` and `RichText` are non-selectable,
`Action` and `Screen` are selectable.  Icons carry no navigation semantics and
are omitted. -/
inductive MenuItem (A S : Type) where
  | headline (text : String)
  | richText (text : String)
  | action (label : String) (a : A)
  | screen (label : String) (s : S)
deriving DecidableEq, Repr

/-- A menu item is selectable iff it is an `action` or a `screen` entry. -/
def MenuItem.isSelectable {A S : Type} : MenuItem A S → Bool
  | .action _ _ => true
  | .screen _ _ => true
  | _ => false

/-- Modelled from the spec: the `Menu` value produced by screen resolution —
an opaque comparable identifier plus an ordered sequence of entries. -/
structure Menu (A S : Type) where
  id : Nat
  entries : List (MenuItem A S)
deriving DecidableEq, Repr

/-- The selectable entries of a menu, in order. -/
def Menu.selectableEntries {A S : Type} (m : Menu A S) : List (MenuItem A S) :=
  m.entries.filter MenuItem.isSelectable

/-- The number of selectable entries of a menu. -/
def Menu.selectableCount {A S : Type} (m : Menu A S) : Nat :=
  m.selectableEntries.length

/-- Modelled from the spec: the `Selections` resource (in the `types` module,
not under `src/`) — a mapping from menu identifier to the last-highlighted
selectable index, modelled as an association list in which the first binding
for a key is authoritative. -/
abbrev Selections := List (Nat × Nat)

/-- Operation `current(menu_id)` of the Selection Tracker: last-known index
for this identifier, or `0` (first selectable entry) if unseen. -/
def Selections.current (sel : Selections) (id : Nat) : Nat :=
  (sel.lookup id).getD 0

/-- Operation `set(menu_id, index)` of the Selection Tracker: explicit set,
e.g. from pointer-hover input. -/
def Selections.set (sel : Selections) (id idx : Nat) : Selections :=
  (id, idx) :: sel

/-- Modelled from the spec: `move(menu_id, delta, selectable_count)` of the
Selection Tracker (the engine code is not under `src/`): wrap-around at both
ends, no-op when `selectable_count = 0`. -/
def Selections.move (sel : Selections) (id : Nat) (delta : Int) (count : Nat) :
    Selections :=
  if count = 0 then sel
  else sel.set id (((sel.current id : Int) + delta) % (count : Int)).toNat

/-- Modelled from the spec: reconciliation of a stored index against a (new)
selectable count — clamp to the last selectable entry if the count shrank
below the stored index; no-op when the count is zero or the index is already
in range. -/
def Selections.reconcile (sel : Selections) (id : Nat) (count : Nat) :
    Selections :=
  if count = 0 then sel
  else if sel.current id < count then sel
  else sel.set id (count - 1)

/-- The operations of the Selection Tracker on a fixed menu identifier, used
to state the bounds invariant over arbitrary operation sequences. -/
inductive TrackerOp where
  | move (delta : Int)
  | set (idx : Nat)
  | reconcile
deriving DecidableEq, Repr

/-- An operation is valid for a given selectable count when any explicitly set
index refers to an existing selectable entry (pointer hover only reports real
entries); `move` and `reconcile` are always valid. -/
def TrackerOp.valid (count : Nat) : TrackerOp → Bool
  | .set idx => idx < count
  | _ => true

/-- Apply one tracker operation for menu identifier `id` with selectable count
`count`. -/
def TrackerOp.apply (count : Nat) (id : Nat) (sel : Selections) :
    TrackerOp → Selections
  | .move delta => sel.move id delta count
  | .set idx => sel.set id idx
  | .reconcile => sel.reconcile id count

/-- Apply a sequence of tracker operations in order. -/
def runTrackerOps (count : Nat) (id : Nat) (sel : Selections)
    (ops : List TrackerOp) : Selections :=
  ops.foldl (fun s op => op.apply count id s) sel

/-- Modelled from the spec: a navigation stack frame — `(screen-value, resolved
Menu, selectable-entry-count)` (the `navigation_menu` module is not under
`src/`). -/
structure NavFrame (A S : Type) where
  screen : S
  menu : Menu A S
  selectableCount : Nat
deriving DecidableEq, Repr

/-- The navigation state held by `MenuState` in `src/lib.rs`.  Its fields are
modelled from the spec (the `navigation_menu` module is not under `src/`): the
stack of frames (top = head), the `Selections` map, and the caller-owned
application state that `MenuState::state` / `MenuState::state_mut` expose. -/
structure NavigationMenu (A S St : Type) where
  stack : List (NavFrame A S)
  selections : Selections
  state : St
deriving DecidableEq

/-- Build a frame for `screen` by resolving it against `state`, recording the
selectable count of the resolved menu. -/
def resolveFrame {A S St : Type} (resolve : S → St → Menu A S) (screen : S)
    (state : St) : NavFrame A S :=
  let m := resolve screen state
  ⟨screen, m, m.selectableCount⟩

/-- From `src/lib.rs` (`NavigationMenu::new` is called by `MenuState::new`;
its body is modelled from the spec's attach semantics): attach with an initial
state and a root screen, producing a one-frame stack and an empty selection
map.  The optional stylesheet has no semantic effect on navigation. -/
def NavigationMenu.new {A S St : Type} (resolve : S → St → Menu A S)
    (state : St) (screen : S) (_sheet : Option Unit) : NavigationMenu A S St :=
  ⟨[resolveFrame resolve screen state], [], state⟩

/-- Modelled from the spec: the `NavigationEvent` alphabet of the `types`
module (not under `src/`): directional movement, confirm/select, back. -/
inductive NavigationEvent where
  | moveUp
  | moveDown
  | select
  | back
deriving DecidableEq, Repr

/-- The entry currently highlighted at the top of the stack: the Selection
Tracker indexes only selectable entries, so it is the `current`-th selectable
entry of the top frame's menu (none if the stack is empty or the menu has no
selectable entry). -/
def NavigationMenu.highlighted {A S St : Type} (nav : NavigationMenu A S St) :
    Option (MenuItem A S) :=
  match nav.stack with
  | [] => none
  | f :: _ => f.menu.selectableEntries.get? (nav.selections.current f.menu.id)

/-- Modelled from the spec: MoveUp/MoveDown delegate to the Selection Tracker
`move` on the top frame's menu identifier; no stack change. -/
def NavigationMenu.moveCursor {A S St : Type} (nav : NavigationMenu A S St)
    (delta : Int) : NavigationMenu A S St :=
  match nav.stack with
  | [] => nav
  | f :: _ =>
    { nav with selections := nav.selections.move f.menu.id delta f.selectableCount }

/-- Modelled from the spec: interpretation of a Confirm on a given entry —
`Action` invokes the Action Handler on the state (no stack change), `Screen`
resolves and pushes a new frame, `Headline`/`RichText` are no-ops. -/
def confirmEntry {A S St : Type} (resolve : S → St → Menu A S)
    (handle : A → St → St) (item : MenuItem A S) (nav : NavigationMenu A S St) :
    NavigationMenu A S St :=
  match item with
  | .headline _ => nav
  | .richText _ => nav
  | .action _ a => { nav with state := handle a nav.state }
  | .screen _ s =>
    { nav with stack := resolveFrame resolve s nav.state :: nav.stack }

/-- Modelled from the spec: a Confirm event acts on the currently highlighted
entry; with nothing to select (empty stack or no selectable entries) it is a
no-op. -/
def NavigationMenu.confirm {A S St : Type} (resolve : S → St → Menu A S)
    (handle : A → St → St) (nav : NavigationMenu A S St) :
    NavigationMenu A S St :=
  match nav.highlighted with
  | none => nav
  | some item => confirmEntry resolve handle item nav

/-- Modelled from the spec: Back pops the top frame if the stack length is
greater than 1; with length exactly 1 it tears the whole menu down (`none`). -/
def NavigationMenu.backStep {A S St : Type} (nav : NavigationMenu A S St) :
    Option (NavigationMenu A S St) :=
  match nav.stack with
  | [] => none
  | [_] => none
  | _ :: rest => some { nav with stack := rest }

/-- One step of the Navigation Engine on the optional (attached or torn-down)
menu state; events delivered after teardown are no-ops.  Modelled from the
spec: the corresponding systems of the `systems` module are not under
`src/`. -/
def stepEvent {A S St : Type} (resolve : S → St → Menu A S)
    (handle : A → St → St) (m : Option (NavigationMenu A S St)) :
    NavigationEvent → Option (NavigationMenu A S St)
  | .moveUp => m.map (fun nav => nav.moveCursor (-1))
  | .moveDown => m.map (fun nav => nav.moveCursor 1)
  | .select => m.map (fun nav => nav.confirm resolve handle)
  | .back => m.bind NavigationMenu.backStep

/-- Run a sequence of navigation events in delivery order. -/
def runEvents {A S St : Type} (resolve : S → St → Menu A S)
    (handle : A → St → St) (events : List NavigationEvent)
    (m : Option (NavigationMenu A S St)) : Option (NavigationMenu A S St) :=
  events.foldl (stepEvent resolve handle) m

/-- Stack length of an optional menu state; a torn-down menu has length 0. -/
def stackLen {A S St : Type} : Option (NavigationMenu A S St) → Nat
  | none => 0
  | some nav => nav.stack.length

/-- Modelled from the spec: the cleanup/teardown signal (`cleanup` in
`src/lib.rs` raises the `CleanUpUI` resource; the consuming
`systems::cleanup_system` is not under `src/`): clears the stack
unconditionally, regardless of depth. -/
def teardown {A S St : Type} :
    Option (NavigationMenu A S St) → Option (NavigationMenu A S St) :=
  fun _ => none

/-- Modelled from the spec: the effect of `MenuState::state_mut`
(`src/lib.rs`, lines 170–176) on the next cycle — the state may be mutated by
`f` (possibly the identity), the top frame's menu is re-resolved against the
new state, and the stored selection index is reconciled against the new
selectable count.  The re-resolving `systems::redraw_system` is not under
`src/`. -/
def externalStateChange {A S St : Type} (resolve : S → St → Menu A S)
    (f : St → St) :
    Option (NavigationMenu A S St) → Option (NavigationMenu A S St)
  | none => none
  | some nav =>
    match nav.stack with
    | [] => some nav
    | fr :: rest =>
      let st := f nav.state
      let m := resolve fr.screen st
      some ⟨⟨fr.screen, m, m.selectableCount⟩ :: rest,
            nav.selections.reconcile m.id m.selectableCount, st⟩

/-- From `src/lib.rs` (lines 150–157): the `MenuState` resource, holding the
navigation state and the `initial_render_done` flag. -/
structure MenuState (A S St : Type) where
  menu : NavigationMenu A S St
  initial_render_done : Bool

/-- From `src/lib.rs` (lines 163–168): `MenuState::new` wraps
`NavigationMenu::new` and sets `initial_render_done` to `false`. -/
def MenuState.new {A S St : Type} (resolve : S → St → Menu A S) (state : St)
    (screen : S) (sheet : Option Unit) : MenuState A S St :=
  { menu := NavigationMenu.new resolve state screen sheet
    initial_render_done := false }

/-- A small concrete host used to evaluate the engine on closed inputs:
screen `s` resolves to a menu with identifier `s`, one action entry and one
sub-screen entry. -/
def demoResolve : Nat → Nat → Menu Nat Nat :=
  fun s _ => ⟨s, [MenuItem.action "toggle" 7, MenuItem.screen "next" (s + 1)]⟩

/-- The demo action handler increments the application state. -/
def demoHandle : Nat → Nat → Nat :=
  fun _ t => t + 1

/-- A concrete host whose menu shrinks from three selectable entries to one
when the application state changes away from `0`. -/
def demoShrink : Nat → Nat → Menu Nat Nat :=
  fun s t =>
    if t = 0 then
      ⟨s, [MenuItem.action "a" 1, MenuItem.screen "b" 2, MenuItem.action "c" 3]⟩
    else ⟨s, [MenuItem.action "only" 7]⟩

/-! ## Selection Tracker lemmas -/

/-- Setting an index makes it the current one for that identifier. -/
theorem Selections.current_set (sel : Selections) (id idx : Nat) :
    (sel.set id idx).current id = idx := by
  simp [Selections.current, Selections.set, List.lookup]

/-- With a positive count, `move` stores the wrapped index. -/
theorem Selections.current_move (sel : Selections) (id count : Nat)
    (delta : Int) (h : count ≠ 0) :
    (sel.move id delta count).current id
      = (((sel.current id : Int) + delta) % (count : Int)).toNat := by
  rw [Selections.move, if_neg h, Selections.current_set]

/-- Moving down by one steps to the successor index modulo the count. -/
theorem Selections.current_move_one (sel : Selections) (id count : Nat)
    (h : count ≠ 0) :
    (sel.move id 1 count).current id = (sel.current id + 1) % count := by
  rw [Selections.current_move sel id count 1 h]
  have h2 : ((sel.current id : Int) + 1) % (count : Int)
      = (((sel.current id + 1) % count : Nat) : Int) := by
    push_cast
    ring
  rw [h2, Int.toNat_natCast]

/-- A `move` with any delta lands strictly below a positive count. -/
theorem Selections.move_lt (sel : Selections) (id count : Nat) (delta : Int)
    (h : 0 < count) : (sel.move id delta count).current id < count := by
  rw [Selections.current_move sel id count delta (Nat.pos_iff_ne_zero.mp h)]
  have hpos : (0 : Int) < (count : Int) := by exact_mod_cast h
  have h1 := Int.emod_lt_of_pos ((sel.current id : Int) + delta) hpos
  have h2 := Int.emod_nonneg ((sel.current id : Int) + delta)
    (by omega : (count : Int) ≠ 0)
  omega

/-- Reconciliation lands strictly below a positive count. -/
theorem Selections.reconcile_lt (sel : Selections) (id count : Nat)
    (h : 0 < count) : (sel.reconcile id count).current id < count := by
  unfold Selections.reconcile
  rw [if_neg (Nat.pos_iff_ne_zero.mp h)]
  by_cases hc : sel.current id < count
  · rw [if_pos hc]
    exact hc
  · rw [if_neg hc, Selections.current_set]
    omega

/-- Every valid tracker operation preserves the bounds invariant. -/
theorem TrackerOp.apply_lt (count id : Nat) (sel : Selections) (op : TrackerOp)
    (h : 0 < count) (hv : op.valid count = true) :
    (op.apply count id sel).current id < count := by
  cases op with
  | move delta => exact Selections.move_lt sel id count delta h
  | set idx =>
    rw [TrackerOp.apply, Selections.current_set]
    exact of_decide_eq_true hv
  | reconcile => exact Selections.reconcile_lt sel id count h

/-- Iterating `move(id, +1)` `k` times advances the index by `k` modulo the
count. -/
theorem Selections.current_iterate_move (id count : Nat) (h : count ≠ 0) :
    ∀ (k : Nat) (sel : Selections), sel.current id < count →
      ((fun s => Selections.move s id 1 count)^[k] sel).current id
        = (sel.current id + k) % count := by
  intro k
  induction k with
  | zero =>
    intro sel h2
    simpa using (Nat.mod_eq_of_lt h2).symm
  | succ n ih =>
    intro sel h2
    rw [Function.iterate_succ_apply',
      Selections.current_move_one _ id count h, ih sel h2, Nat.mod_add_mod,
      Nat.add_assoc]

/-- Int arithmetic fact used for the downward wrap: `-1` taken modulo a
positive count is `count - 1`. -/
theorem neg_one_emod (count : Nat) (h : 0 < count) :
    (-1 : Int) % (count : Int) = (count : Int) - 1 := by
  have h1 : (-1 : Int) % (count : Int)
      = ((-1 : Int) + (count : Int) * 1) % (count : Int) :=
    (Int.add_mul_emod_self_left (-1) (count : Int) 1).symm
  rw [h1]
  have h2 : ((-1 : Int) + (count : Int) * 1) = (count : Int) - 1 := by ring
  rw [h2]
  exact Int.emod_eq_of_lt (by omega) (by omega)

/-- **C2.** For every menu identifier whose menu has `selectable_count = n > 0`,
the Selection Tracker's stored index lies in `[0, n)` after every sequence of
operations (`move` with any delta, valid `set`, and the reconciliation run
after an external state change), starting from any in-bounds state — in
particular from the fresh tracker, whose `current` is `0`. -/
theorem tracker_index_in_bounds (count id : Nat) (sel : Selections)
    (ops : List TrackerOp) (hc : 0 < count)
    (hops : ops.all (TrackerOp.valid count) = true)
    (hcur : sel.current id < count) :
    (runTrackerOps count id sel ops).current id < count := by
  induction ops generalizing sel with
  | nil => exact hcur
  | cons op rest ih =>
    rw [List.all_cons, Bool.and_eq_true] at hops
    exact ih _ hops.2 (TrackerOp.apply_lt count id sel op hc hops.1)

/-- Witness for C2 at a concrete run: count 3, identifier 0, fresh tracker,
a mixed sequence of moves, a valid hover set, and a reconcile. -/
theorem tracker_index_in_bounds_witness :
    (runTrackerOps 3 0 []
      [TrackerOp.move 5, TrackerOp.set 2, TrackerOp.reconcile,
       TrackerOp.move (-7)]).current 0 < 3 :=
  tracker_index_in_bounds 3 0 []
    [TrackerOp.move 5, TrackerOp.set 2, TrackerOp.reconcile,
     TrackerOp.move (-7)]
    (by decide) (by decide) (by decide)

/-- **C3.** With `selectable_count = n > 0` and any in-bounds starting index,
applying `move(id, +1)` exactly `n` times returns the index to its starting
value; moreover movement wraps past the last selectable entry to the first
(`+1` from `n - 1` gives `0`) and vice versa (`-1` from `0` gives `n - 1`). -/
theorem move_wraps (id count : Nat) (sel : Selections) (hc : 0 < count)
    (hcur : sel.current id < count) :
    ((fun s => Selections.move s id 1 count)^[count] sel).current id
        = sel.current id
    ∧ (sel.current id = count - 1 → (sel.move id 1 count).current id = 0)
    ∧ (sel.current id = 0 → (sel.move id (-1) count).current id = count - 1) := by
  have hne : count ≠ 0 := Nat.pos_iff_ne_zero.mp hc
  refine ⟨?_, ?_, ?_⟩
  · rw [Selections.current_iterate_move id count hne count sel hcur,
      Nat.add_mod_right, Nat.mod_eq_of_lt hcur]
  · intro he
    rw [Selections.current_move_one sel id count hne, he]
    have h1 : count - 1 + 1 = count := by omega
    rw [h1, Nat.mod_self]
  · intro he
    rw [Selections.current_move sel id count (-1) hne, he]
    simp only [Nat.cast_zero, zero_add]
    rw [neg_one_emod count hc]
    omega

/-- Witness for C3: count 3, starting index 2 (the spec's Scenario 4). -/
theorem move_wraps_witness :
    ((fun s => Selections.move s 0 1 3)^[3] [(0, 2)]).current 0
        = Selections.current [(0, 2)] 0
    ∧ (Selections.current [(0, 2)] 0 = 3 - 1 →
        (Selections.move [(0, 2)] 0 1 3).current 0 = 0)
    ∧ (Selections.current [(0, 2)] 0 = 0 →
        (Selections.move [(0, 2)] 0 (-1) 3).current 0 = 3 - 1) :=
  move_wraps 0 3 [(0, 2)] (by decide) (by decide)

/-! ## Navigation Engine lemmas -/

/-- Cursor movement never touches the stack. -/
theorem NavigationMenu.moveCursor_stack {A S St : Type}
    (nav : NavigationMenu A S St) (delta : Int) :
    (nav.moveCursor delta).stack = nav.stack := by
  rcases nav with ⟨stack, sel, st⟩
  cases stack <;> rfl

/-- Confirm never shrinks the stack. -/
theorem NavigationMenu.confirm_stack_le {A S St : Type}
    (resolve : S → St → Menu A S) (handle : A → St → St)
    (nav : NavigationMenu A S St) :
    nav.stack.length ≤ (nav.confirm resolve handle).stack.length := by
  rw [NavigationMenu.confirm]
  cases h : nav.highlighted with
  | none => exact Nat.le_refl _
  | some item => cases item <;> simp [confirmEntry]

/-- Back only yields an attached state with a nonempty stack. -/
theorem NavigationMenu.backStep_len {A S St : Type}
    (nav nav2 : NavigationMenu A S St) (h : nav.backStep = some nav2) :
    1 ≤ nav2.stack.length := by
  rcases nav with ⟨stack, sel, st⟩
  match stack with
  | [] => simp [NavigationMenu.backStep] at h
  | [f] => simp [NavigationMenu.backStep] at h
  | f :: g :: rest =>
    have he : NavigationMenu.backStep ⟨f :: g :: rest, sel, st⟩
        = some ⟨g :: rest, sel, st⟩ := rfl
    rw [he] at h
    cases h
    simp

/-- One engine step preserves "attached implies nonempty stack". -/
theorem stepEvent_active_len {A S St : Type} (resolve : S → St → Menu A S)
    (handle : A → St → St) (m : Option (NavigationMenu A S St))
    (e : NavigationEvent)
    (h : ∀ nav, m = some nav → 1 ≤ nav.stack.length) :
    ∀ nav, stepEvent resolve handle m e = some nav → 1 ≤ nav.stack.length := by
  intro nav hnav
  cases m with
  | none => cases e <;> simp [stepEvent] at hnav
  | some nav0 =>
    have h0 := h nav0 rfl
    cases e with
    | moveUp =>
      simp [stepEvent] at hnav
      rw [← hnav, NavigationMenu.moveCursor_stack]
      exact h0
    | moveDown =>
      simp [stepEvent] at hnav
      rw [← hnav, NavigationMenu.moveCursor_stack]
      exact h0
    | select =>
      simp [stepEvent] at hnav
      rw [← hnav]
      exact Nat.le_trans h0 (NavigationMenu.confirm_stack_le resolve handle nav0)
    | back =>
      simp [stepEvent] at hnav
      exact NavigationMenu.backStep_len nav0 nav hnav

/-- Running any event sequence preserves "attached implies nonempty stack". -/
theorem runEvents_active_len {A S St : Type} (resolve : S → St → Menu A S)
    (handle : A → St → St) (events : List NavigationEvent) :
    ∀ (m : Option (NavigationMenu A S St)),
      (∀ nav, m = some nav → 1 ≤ nav.stack.length) →
      ∀ nav, runEvents resolve handle events m = some nav →
        1 ≤ nav.stack.length := by
  induction events with
  | nil => exact fun m h nav hnav => h nav hnav
  | cons e rest ih =>
    intro m h
    exact ih (stepEvent resolve handle m e)
      (stepEvent_active_len resolve handle m e h)

/-! ## Claim theorems -/

/-- **C1.** For every sequence of navigation events applied to a freshly
attached menu, the stack length is at least 1 while the menu is active (the
state is still `some`), and exactly 0 after teardown; no event sequence can
leave an active menu with an empty stack. -/
theorem nav_stack_invariant {A S St : Type} (resolve : S → St → Menu A S)
    (handle : A → St → St) (st : St) (root : S) (sheet : Option Unit)
    (events : List NavigationEvent) :
    (∀ nav, runEvents resolve handle events
        (some (NavigationMenu.new resolve st root sheet)) = some nav →
      1 ≤ nav.stack.length)
    ∧ stackLen (teardown (runEvents resolve handle events
        (some (NavigationMenu.new resolve st root sheet)))) = 0 := by
  constructor
  · apply runEvents_active_len
    intro nav hnav
    cases hnav
    exact Nat.le_refl 1
  · rfl

/-- Witness for C1: a concrete down-select-back run ends attached with a
one-frame stack. -/
theorem nav_stack_invariant_witness :
    1 ≤ (NavigationMenu.mk
      [⟨0, ⟨0, [MenuItem.action "toggle" 7, MenuItem.screen "next" 1]⟩, 2⟩]
      [(0, 1)] (0 : Nat)).stack.length :=
  (nav_stack_invariant demoResolve demoHandle 0 0 none
    [NavigationEvent.moveDown, NavigationEvent.select,
     NavigationEvent.back]).1
    (NavigationMenu.mk
      [⟨0, ⟨0, [MenuItem.action "toggle" 7, MenuItem.screen "next" 1]⟩, 2⟩]
      [(0, 1)] (0 : Nat))
    (by decide)

/-- **C4.** A Confirm whose entry is a non-selectable item (`Headline` or
`RichText`) is ignored: the navigation state (stack, selections, application
state) is returned unchanged, and no error value exists to be surfaced. -/
theorem confirm_nonselectable_noop {A S St : Type} (resolve : S → St → Menu A S)
    (handle : A → St → St) (nav : NavigationMenu A S St) (text : String) :
    confirmEntry resolve handle (MenuItem.headline text) nav = nav
    ∧ confirmEntry resolve handle (MenuItem.richText text) nav = nav :=
  ⟨rfl, rfl⟩

/-- **C5.** Back pops the top frame when the stack length is greater than 1;
at length exactly 1 it tears the whole menu down (the same result as external
cleanup); Back after teardown is a no-op. -/
theorem back_pops_or_tears_down {A S St : Type} (resolve : S → St → Menu A S)
    (handle : A → St → St) (f : NavFrame A S) (rest : List (NavFrame A S))
    (sel : Selections) (st : St) :
    (rest ≠ [] → stepEvent resolve handle (some ⟨f :: rest, sel, st⟩)
        NavigationEvent.back = some ⟨rest, sel, st⟩)
    ∧ stepEvent resolve handle (some ⟨[f], sel, st⟩) NavigationEvent.back
        = teardown (some ⟨[f], sel, st⟩)
    ∧ stepEvent resolve handle (none : Option (NavigationMenu A S St))
        NavigationEvent.back = none := by
  refine ⟨?_, rfl, rfl⟩
  intro h
  cases rest with
  | nil => exact absurd rfl h
  | cons g rest2 => rfl

/-- Witness for C5 on a two-frame stack. -/
theorem back_pops_or_tears_down_witness :
    stepEvent demoResolve demoHandle
      (some ⟨[resolveFrame demoResolve 1 0, resolveFrame demoResolve 0 0],
        [], 0⟩) NavigationEvent.back
      = some ⟨[resolveFrame demoResolve 0 0], [], 0⟩ :=
  (back_pops_or_tears_down demoResolve demoHandle
    (resolveFrame demoResolve 1 0) [resolveFrame demoResolve 0 0] [] 0).1
    (by simp)

/-- **C6.** Selections are keyed by menu identifier, not by stack position:
with index 2 recorded for the top menu's identifier, pushing another screen
and popping back restores exactly the pre-push state, whose selection for
that identifier is 2. -/
theorem selections_keyed_by_identifier {A S St : Type}
    (resolve : S → St → Menu A S) (handle : A → St → St) (fA : NavFrame A S)
    (rest : List (NavFrame A S)) (sel : Selections) (st : St) (label : String)
    (b : S) :
    (confirmEntry resolve handle (MenuItem.screen label b)
        ⟨fA :: rest, sel.set fA.menu.id 2, st⟩).backStep
      = some ⟨fA :: rest, sel.set fA.menu.id 2, st⟩
    ∧ (sel.set fA.menu.id 2).current fA.menu.id = 2 :=
  ⟨rfl, Selections.current_set sel fA.menu.id 2⟩

/-- **C7.** Cleanup/teardown clears the navigation stack unconditionally from
every depth and is idempotent; on an already torn-down menu it changes
nothing. -/
theorem cleanup_unconditional_idempotent {A S St : Type}
    (m : Option (NavigationMenu A S St)) :
    stackLen (teardown m) = 0
    ∧ teardown (teardown m) = teardown m
    ∧ teardown (none : Option (NavigationMenu A S St)) = none :=
  ⟨rfl, rfl, rfl⟩

/-- **C8.** Screen resolution is deterministic: two calls to `resolve` with
the same `(screen, state)` pair yield menus with the same order and count of
selectable entries. -/
theorem resolve_deterministic {A S St : Type} (resolve : S → St → Menu A S)
    (s1 s2 : S) (st1 st2 : St) (hs : s1 = s2) (hst : st1 = st2) :
    (resolve s1 st1).selectableEntries = (resolve s2 st2).selectableEntries
    ∧ (resolve s1 st1).selectableCount = (resolve s2 st2).selectableCount := by
  subst hs
  subst hst
  exact ⟨rfl, rfl⟩

/-- Witness for C8 on the demo resolver. -/
theorem resolve_deterministic_witness :
    (demoResolve 0 5).selectableEntries = (demoResolve 0 5).selectableEntries
    ∧ (demoResolve 0 5).selectableCount = (demoResolve 0 5).selectableCount :=
  resolve_deterministic demoResolve 0 0 5 5 rfl rfl

/-- **C9.** After a mutable handle to the application state is taken (the
mutation `f` may be the identity), the top frame's menu is re-resolved against
the possibly changed state before the next redraw, and the Selection Tracker's
stored index for that menu is reconciled against the new selectable count:
whenever that count is positive the reconciled index lies below it. -/
theorem state_mut_reresolves_and_reconciles {A S St : Type}
    (resolve : S → St → Menu A S) (f : St → St) (fr : NavFrame A S)
    (rest : List (NavFrame A S)) (sel : Selections) (st : St) :
    externalStateChange resolve f (some ⟨fr :: rest, sel, st⟩)
      = some ⟨⟨fr.screen, resolve fr.screen (f st),
              (resolve fr.screen (f st)).selectableCount⟩ :: rest,
            sel.reconcile (resolve fr.screen (f st)).id
              (resolve fr.screen (f st)).selectableCount, f st⟩
    ∧ (0 < (resolve fr.screen (f st)).selectableCount →
        (sel.reconcile (resolve fr.screen (f st)).id
            (resolve fr.screen (f st)).selectableCount).current
            (resolve fr.screen (f st)).id
          < (resolve fr.screen (f st)).selectableCount) :=
  ⟨rfl, fun h => Selections.reconcile_lt sel _ _ h⟩

/-- Witness for C9: the demo menu shrinks from three selectable entries to
one, and the stale stored index 2 is clamped below the new count. -/
theorem state_mut_reresolves_and_reconciles_witness :
    (Selections.reconcile [(0, 2)] (demoShrink 0 1).id
        (demoShrink 0 1).selectableCount).current (demoShrink 0 1).id
      < (demoShrink 0 1).selectableCount :=
  (state_mut_reresolves_and_reconciles demoShrink (fun _ => 1)
    (resolveFrame demoShrink 0 0) [] [(0, 2)] 0).2 (by decide)

/-- **C10.** For every initial application state, root screen and optional
stylesheet, `MenuState::new` returns a state whose `initial_render_done` flag
is `false`. -/
theorem menu_state_new_not_rendered {A S St : Type}
    (resolve : S → St → Menu A S) (state : St) (screen : S)
    (sheet : Option Unit) :
    (MenuState.new resolve state screen sheet).initial_render_done = false :=
  rfl
